import Mathlib

/-!
# Verification of `simple_vector.h` (MrFo4/simple_vector)

A shallow embedding of the C++ container `SimpleVector<Type>` from
`src/simple_vector.h`.  The container stores its elements in a raw buffer
(`ArrayPtr<Type> data_`, a header not shipped with the sources) together with a
logical `size_` and a `capacity_` field (both `size_t`, with in-class default
initializers `= 0`).

The buffer is modelled as a `List α`; an element type `α` with `[Inhabited α]`
models a default-constructible C++ `Type` (value-semantic, no observable
aliasing).  Reads of buffer slots are modelled totally via `List.getD` with the
default element (an out-of-range read is UB in C++; the model returns
`default`), writes via `List.set` (an out-of-range write is dropped).
Bulk writes performed by `std::copy`/`std::fill`/`std::move`/`std::move_backward`
loops are modelled by their functional result: a `List.range`-indexed rebuild
of the buffer, one `if` per slot describing which source slot the loop wrote
there.
-/

namespace SpecSV

/-- The state of a `SimpleVector<Type>`: the owned buffer `data_` (its length is
the number of physically allocated slots), the logical size `size_` and the
recorded capacity `capacity_` (lines 236-238 of `simple_vector.h`;
`size_` and `capacity_` carry in-class initializers `= 0`). -/
structure SimpleVector (α : Type) where
  data_ : List α
  size_ : Nat
  capacity_ : Nat
deriving Repr, DecidableEq

variable {α : Type} [Inhabited α]

/-- Reading buffer slot `i` (`data_[i]`); total model of the raw access, an
out-of-range read yields `default`. -/
def bufRead (buf : List α) (i : Nat) : α :=
  buf.getD i default

/-- Writing buffer slot `i` (`data_[i] = v`); an out-of-range write is a
no-op in the model. -/
def bufWrite (buf : List α) (i : Nat) (v : α) : List α :=
  buf.set i v

/-- Modelled from the spec: `ArrayPtr<Type>` construction (the `array_ptr.h`
header is not in the sources).  Spec section 4.1, OwnedBuffer:
"acquires storage for exactly `capacity` default-constructed elements of T;
`capacity = 0` is valid and holds no storage". -/
def newBuffer (n : Nat) : List α :=
  List.replicate n default

/-- Functional result of the copy loop `for i < n: dst[i] = src[i]`
(used by the copy constructor's `std::copy`, by `Reserve`'s `std::move`
into the fresh buffer, and by the growth loop inside `PushBack(const Type&)`). -/
def copyInto (dst src : List α) (n : Nat) : List α :=
  (List.range dst.length).map (fun i => if i < n then bufRead src i else bufRead dst i)

/-- Functional result of
`std::move_backward(begin() + first, begin() + last, begin() + last + 1)`:
slots `first < j ≤ last` receive the old slot `j - 1`, the rest are unchanged
(`Insert`, lines 187 and 200). -/
def shiftUp (buf : List α) (first last : Nat) : List α :=
  (List.range buf.length).map
    (fun j => if first < j ∧ j ≤ last then bufRead buf (j - 1) else bufRead buf j)

/-- Functional result of
`std::move(begin() + first + 1, begin() + last, begin() + first)`:
slots `first ≤ j` with `j + 1 < last` receive the old slot `j + 1`, the rest
are unchanged (`Erase`, line 215). -/
def shiftDown (buf : List α) (first last : Nat) : List α :=
  (List.range buf.length).map
    (fun j => if first ≤ j ∧ j + 1 < last then bufRead buf (j + 1) else bufRead buf j)

/-- Functional result of the loop `for i in [first, last): data_[i] = Type{}`
(`Resize`, lines 153-155). -/
def fillDefault (buf : List α) (first last : Nat) : List α :=
  (List.range buf.length).map
    (fun i => if first ≤ i ∧ i < last then default else bufRead buf i)

namespace SimpleVector

/-- Source `SimpleVector() noexcept = default` (line 30): all members take their
in-class initializers; a default `ArrayPtr` owns no storage. -/
def mkDefault : SimpleVector α :=
  { data_ := [], size_ := 0, capacity_ := 0 }

/-- Source `explicit SimpleVector(size_t size)` (lines 32-35): buffer of `size`
default-constructed slots, then `std::generate` fills `[0, size)` with
`Type()` (which the fresh slots already hold). -/
def mkSized (n : Nat) : SimpleVector α :=
  { data_ := fillDefault (newBuffer n) 0 n, size_ := n, capacity_ := n }

/-- Source `SimpleVector(size_t size, const Type& value)` (lines 38-41):
`std::fill(data, data + size, value)` over a fresh buffer. -/
def mkFilled (n : Nat) (value : α) : SimpleVector α :=
  { data_ := copyInto (newBuffer n) (List.replicate n value) n,
    size_ := n, capacity_ := n }

/-- Source `SimpleVector(std::initializer_list<Type>)` (lines 43-46): buffer of
`init_list.size()` slots, the list copied in. -/
def mkList (l : List α) : SimpleVector α :=
  { data_ := copyInto (newBuffer l.length) l l.length,
    size_ := l.length, capacity_ := l.length }

/-- Source `SimpleVector(const SimpleVector& other)` (lines 48-51): the member
initializer list is `data_(other.capacity_), size_(other.size_)` — it
allocates `other.capacity_` slots and `std::copy`s the `other.size_` live
elements, but does NOT mention `capacity_`, which therefore keeps its
in-class initializer `= 0` (line 238). -/
def copyCtor (other : SimpleVector α) : SimpleVector α :=
  { data_ := copyInto (newBuffer other.capacity_) other.data_ other.size_,
    size_ := other.size_,
    capacity_ := 0 }

/-- Source `SimpleVector(SimpleVector&& other) noexcept` (lines 53-57): steals the
buffer (`ArrayPtr` move leaves the source owning nothing), copies the
counters, then zeroes the source's counters.  Returns
(the new vector, the source after the move). -/
def moveCtor (other : SimpleVector α) : SimpleVector α × SimpleVector α :=
  ({ data_ := other.data_, size_ := other.size_, capacity_ := other.capacity_ },
   { data_ := [], size_ := 0, capacity_ := 0 })

/-- Source `size_t GetSize() const noexcept` (lines 130-132). -/
def GetSize (s : SimpleVector α) : Nat :=
  s.size_

/-- Source `size_t GetCapacity() const noexcept` (lines 134-136). -/
def GetCapacity (s : SimpleVector α) : Nat :=
  s.capacity_

/-- Source `bool IsEmpty() const noexcept` (lines 138-140). -/
def IsEmpty (s : SimpleVector α) : Bool :=
  s.size_ == 0

/-- The live sequence `begin() .. end()`: buffer slots `[0, size_)`
(lines 106-128). -/
def liveElems (s : SimpleVector α) : List α :=
  (List.range s.size_).map (bufRead s.data_)

/-- Source `Type& At(size_t index)` (lines 92-97): throws `std::out_of_range` when
`index >= size_`, otherwise returns `data_[index]`.  The throw is modelled
as `none`. -/
def At (s : SimpleVector α) (index : Nat) : Option α :=
  if index ≥ s.size_ then none else some (bufRead s.data_ index)

/-- Source `void Clear() noexcept` (lines 142-144): `size_ = 0`. -/
def Clear (s : SimpleVector α) : SimpleVector α :=
  { s with size_ := 0 }

/-- Source `void Reserve(size_t new_capacity)` (lines 226-233): if
`new_capacity > capacity_`, build a fresh buffer of `new_capacity` slots,
`std::move` the `size_` live elements into it, swap it in and record the new
capacity; otherwise do nothing. -/
def Reserve (s : SimpleVector α) (new_capacity : Nat) : SimpleVector α :=
  if new_capacity > s.capacity_ then
    { data_ := copyInto (newBuffer new_capacity) s.data_ s.size_,
      size_ := s.size_, capacity_ := new_capacity }
  else s

/-- Source `explicit SimpleVector(ReserveProxy)` (lines 59-61): default-construct,
then `Reserve(reserve_proxy.GetReserveSize())`. -/
def mkReserved (n : Nat) : SimpleVector α :=
  Reserve mkDefault n

/-- Source `operator=(const SimpleVector& rhs)` (lines 63-69): when `this != &rhs`
(the `same` flag), copy-construct a temporary from `rhs` and swap it into
`this`; the net state of `this` is the temporary.  When `same`, nothing
happens. -/
def copyAssign (s rhs : SimpleVector α) (same : Bool) : SimpleVector α :=
  if same then s else copyCtor rhs

/-- Source `operator=(SimpleVector&& rhs) noexcept` (lines 71-80): when
`this != &rhs`, move the buffer over and zero the source's counters; when
`same` (the guard `this != &rhs` fails), nothing happens.  Returns
(state of `this`, state of `rhs`). -/
def moveAssign (s rhs : SimpleVector α) (same : Bool) :
    SimpleVector α × SimpleVector α :=
  if same then (s, rhs)
  else ({ data_ := rhs.data_, size_ := rhs.size_, capacity_ := rhs.capacity_ },
        { data_ := [], size_ := 0, capacity_ := 0 })

/-- The growth step of `Resize` (lines 150-152):
`if (new_size > capacity_) Reserve(new_size > capacity_ * 2 ? new_size : capacity_ * 2)`. -/
def resizeGrow (s : SimpleVector α) (new_size : Nat) : SimpleVector α :=
  if new_size > s.capacity_ then
    Reserve s (if new_size > s.capacity_ * 2 then new_size else s.capacity_ * 2)
  else s

/-- Source `void Resize(size_t new_size)` (lines 146-158): truncate when
`new_size <= size_`; otherwise grow as above, default-initialize slots
`[size_, new_size)`, and set the new size. -/
def Resize (s : SimpleVector α) (new_size : Nat) : SimpleVector α :=
  if new_size ≤ s.size_ then
    { s with size_ := new_size }
  else
    { resizeGrow s new_size with
      data_ := fillDefault (resizeGrow s new_size).data_ (resizeGrow s new_size).size_ new_size,
      size_ := new_size }

/-- The growth step inlined in `PushBack(const Type&)` (lines 161-169): when
`size_ == capacity_`, build a buffer of `capacity_ == 0 ? 1 : capacity_ * 2`
slots, copy the `size_` live elements across, swap and record the capacity. -/
def pushGrow (s : SimpleVector α) : SimpleVector α :=
  if s.size_ = s.capacity_ then
    { data_ := copyInto (newBuffer (if s.capacity_ = 0 then 1 else s.capacity_ * 2))
                 s.data_ s.size_,
      size_ := s.size_,
      capacity_ := if s.capacity_ = 0 then 1 else s.capacity_ * 2 }
  else s

/-- Source `void PushBack(const Type& item)` (lines 160-171): the growth step above,
then `data_[size_++] = item`. -/
def PushBack (s : SimpleVector α) (item : α) : SimpleVector α :=
  { pushGrow s with
    data_ := bufWrite (pushGrow s).data_ (pushGrow s).size_ item,
    size_ := (pushGrow s).size_ + 1 }

/-- The growth step
`if (size_ == capacity_) { Reserve(capacity_ == 0 ? 1 : capacity_ * 2); }`,
spelled out identically in `PushBack(Type&&)` (lines 174-176) and both
`Insert` overloads (lines 184-186 and 197-199). -/
def growIfFull (s : SimpleVector α) : SimpleVector α :=
  if s.size_ = s.capacity_ then
    Reserve s (if s.capacity_ = 0 then 1 else s.capacity_ * 2)
  else s

/-- Source `void PushBack(Type&& item)` (lines 173-178): when `size_ == capacity_`,
`Reserve(capacity_ == 0 ? 1 : capacity_ * 2)`; then
`data_[size_++] = std::move(item)`. -/
def PushBackMove (s : SimpleVector α) (item : α) : SimpleVector α :=
  { growIfFull s with
    data_ := bufWrite (growIfFull s).data_ (growIfFull s).size_ item,
    size_ := (growIfFull s).size_ + 1 }

/-- Source `Iterator Insert(ConstIterator pos, const Type& value)` (lines 180-191):
`offset = pos - begin()`; grow exactly as `PushBack(Type&&)` when full;
`std::move_backward(begin() + offset, end(), end() + 1)`;
`data_[offset] = value; ++size_`; return `begin() + offset`, modelled as the
offset.  (The `Type&&` overload, lines 193-204, performs the identical state
change.) -/
def Insert (s : SimpleVector α) (offset : Nat) (value : α) :
    SimpleVector α × Nat :=
  ({ growIfFull s with
     data_ := bufWrite (shiftUp (growIfFull s).data_ offset (growIfFull s).size_)
                offset value,
     size_ := (growIfFull s).size_ + 1 },
   offset)

/-- Source `void PopBack() noexcept` (lines 206-209): `--size_` (precondition
`size_ > 0` is an assert). -/
def PopBack (s : SimpleVector α) : SimpleVector α :=
  { s with size_ := s.size_ - 1 }

/-- Source `Iterator Erase(ConstIterator pos)` (lines 211-218):
`offset = pos - begin()`; `std::move(begin() + offset + 1, end(),
begin() + offset)`; `--size_`; return `begin() + offset`, modelled as the
offset. -/
def Erase (s : SimpleVector α) (offset : Nat) : SimpleVector α × Nat :=
  ({ s with data_ := shiftDown s.data_ offset s.size_, size_ := s.size_ - 1 },
   offset)

/-- Source `void swap(SimpleVector& other) noexcept` (lines 220-224). -/
def swapWith (s other : SimpleVector α) : SimpleVector α × SimpleVector α :=
  (other, s)

/-- Well-formed state: the recorded capacity bounds the size and equals the
number of allocated buffer slots.  Every constructor except the (buggy) copy
constructor establishes this. -/
def WF (s : SimpleVector α) : Prop :=
  s.size_ ≤ s.capacity_ ∧ s.data_.length = s.capacity_

instance (s : SimpleVector α) : Decidable (WF s) :=
  inferInstanceAs (Decidable (_ ∧ _))

/-- A capacity shaped by the doubling growth policy: `0` before the first
growth event, afterwards a power of two — and never below the size. -/
def GoodCap (s : SimpleVector α) : Prop :=
  s.size_ ≤ s.capacity_ ∧ (s.capacity_ = 0 ∨ ∃ k, s.capacity_ = 2 ^ k)

/-- One `PushBack` call, selecting either the `const Type&` overload or the
`Type&&` overload by the flag. -/
def pushStep (s : SimpleVector α) (p : α × Bool) : SimpleVector α :=
  if p.2 then PushBackMove s p.1 else PushBack s p.1

/-- A sequence of `PushBack` calls (each choosing either overload). -/
def pushSeq (s : SimpleVector α) (items : List (α × Bool)) : SimpleVector α :=
  items.foldl pushStep s

/-- Statement of claim C4 about `Resize s n`. -/
def ResizeClaim (s : SimpleVector α) (n : Nat) : Prop :=
  (n ≤ GetSize s → Resize s n = { s with size_ := n }) ∧
  (GetSize s < n →
    GetSize (Resize s n) = n ∧
    (n ≤ GetCapacity s → GetCapacity (Resize s n) = GetCapacity s) ∧
    (GetCapacity s < n → GetCapacity (Resize s n) = max n (GetCapacity s * 2)) ∧
    (∀ i, GetSize s ≤ i → i < n → At (Resize s n) i = some default))

/-- Statement of claim C5 about `Reserve s n`. -/
def ReserveClaim (s : SimpleVector α) (n : Nat) : Prop :=
  (GetCapacity s < n →
    GetCapacity (Reserve s n) = n ∧
    GetSize (Reserve s n) = GetSize s ∧
    liveElems (Reserve s n) = liveElems s) ∧
  (n ≤ GetCapacity s → Reserve s n = s)

/-- Statement of claim C9: each size-shrinking operation keeps the capacity
and releases no storage (the buffer is untouched by `Clear`, `PopBack` and a
truncating `Resize`, and keeps its allocation size under `Erase`). -/
def ShrinkFrameClaim (s : SimpleVector α) (n o : Nat) : Prop :=
  GetCapacity (Clear s) = GetCapacity s ∧ (Clear s).data_ = s.data_ ∧
  GetCapacity (PopBack s) = GetCapacity s ∧ (PopBack s).data_ = s.data_ ∧
  GetCapacity (Erase s o).1 = GetCapacity s ∧
  (Erase s o).1.data_.length = s.data_.length ∧
  GetCapacity (Resize s n) = GetCapacity s ∧ (Resize s n).data_ = s.data_

/-- Statement of claim C7: `Erase` at the position returned by `Insert`
restores the original live sequence and size. -/
def InsertEraseClaim (s : SimpleVector α) (o : Nat) (v : α) : Prop :=
  liveElems (Erase (Insert s o v).1 (Insert s o v).2).1 = liveElems s ∧
  GetSize (Erase (Insert s o v).1 (Insert s o v).2).1 = GetSize s

end SimpleVector

/-! ## Buffer lemmas -/

@[simp]
lemma length_newBuffer (n : Nat) : (newBuffer (α := α) n).length = n :=
  List.length_replicate ..

@[simp]
lemma length_copyInto (dst src : List α) (n : Nat) :
    (copyInto dst src n).length = dst.length := by
  simp [copyInto]

@[simp]
lemma length_shiftUp (buf : List α) (first last : Nat) :
    (shiftUp buf first last).length = buf.length := by
  simp [shiftUp]

@[simp]
lemma length_shiftDown (buf : List α) (first last : Nat) :
    (shiftDown buf first last).length = buf.length := by
  simp [shiftDown]

@[simp]
lemma length_fillDefault (buf : List α) (first last : Nat) :
    (fillDefault buf first last).length = buf.length := by
  simp [fillDefault]

@[simp]
lemma length_bufWrite (buf : List α) (i : Nat) (v : α) :
    (bufWrite buf i v).length = buf.length :=
  List.length_set ..

lemma bufRead_rangeMap (f : Nat → α) (n i : Nat) :
    bufRead ((List.range n).map f) i = if i < n then f i else default := by
  rcases lt_or_le i n with h | h
  · rw [bufRead, List.getD_eq_getElem?_getD, List.getElem?_map, List.getElem?_range h]
    simp [h]
  · rw [bufRead, List.getD_eq_getElem?_getD, List.getElem?_eq_none (by simpa using h)]
    simp [Nat.not_lt.mpr h]

lemma bufRead_newBuffer (n i : Nat) : bufRead (newBuffer (α := α) n) i = default := by
  rcases lt_or_le i n with h | h
  · rw [bufRead, List.getD_eq_getElem?_getD, newBuffer, List.getElem?_replicate]
    simp [h]
  · rw [bufRead, List.getD_eq_getElem?_getD,
      List.getElem?_eq_none (by simpa using h)]
    rfl

lemma bufRead_copyInto (dst src : List α) (n i : Nat) :
    bufRead (copyInto dst src n) i =
      if i < dst.length then (if i < n then bufRead src i else bufRead dst i)
      else default := by
  rw [copyInto, bufRead_rangeMap]

lemma bufRead_shiftUp (buf : List α) (first last i : Nat) :
    bufRead (shiftUp buf first last) i =
      if i < buf.length then
        (if first < i ∧ i ≤ last then bufRead buf (i - 1) else bufRead buf i)
      else default := by
  rw [shiftUp, bufRead_rangeMap]

lemma bufRead_shiftDown (buf : List α) (first last i : Nat) :
    bufRead (shiftDown buf first last) i =
      if i < buf.length then
        (if first ≤ i ∧ i + 1 < last then bufRead buf (i + 1) else bufRead buf i)
      else default := by
  rw [shiftDown, bufRead_rangeMap]

lemma bufRead_fillDefault (buf : List α) (first last i : Nat) :
    bufRead (fillDefault buf first last) i =
      if i < buf.length then
        (if first ≤ i ∧ i < last then default else bufRead buf i)
      else default := by
  rw [fillDefault, bufRead_rangeMap]

lemma bufRead_bufWrite_ne (buf : List α) (i j : Nat) (v : α) (h : i ≠ j) :
    bufRead (bufWrite buf i v) j = bufRead buf j := by
  rw [bufRead, bufWrite, List.getD_eq_getElem?_getD, List.getElem?_set_ne h,
    ← List.getD_eq_getElem?_getD, bufRead]

lemma bufRead_bufWrite_self (buf : List α) (i : Nat) (v : α) (h : i < buf.length) :
    bufRead (bufWrite buf i v) i = v := by
  rw [bufRead, bufWrite, List.getD_eq_getElem?_getD, List.getElem?_set_self h]
  rfl

namespace SimpleVector

lemma liveElems_congr (s t : SimpleVector α) (hsize : t.size_ = s.size_)
    (h : ∀ i, i < s.size_ → bufRead t.data_ i = bufRead s.data_ i) :
    liveElems t = liveElems s := by
  unfold liveElems
  rw [hsize]
  exact List.map_congr_left (fun i hi => h i (List.mem_range.mp hi))

lemma At_some (s : SimpleVector α) (i : Nat) (h : i < s.size_) :
    At s i = some (bufRead s.data_ i) := by
  unfold At
  rw [if_neg (by omega)]

/-! ### Lemmas about the shared growth step -/

lemma growIfFull_size (s : SimpleVector α) : (growIfFull s).size_ = s.size_ := by
  unfold growIfFull Reserve
  split_ifs <;> rfl

lemma growIfFull_read (s : SimpleVector α)
    (i : Nat) (hi : i < s.size_) :
    bufRead (growIfFull s).data_ i = bufRead s.data_ i := by
  unfold growIfFull
  by_cases hfull : s.size_ = s.capacity_
  · rw [if_pos hfull]
    have hc : s.capacity_ ≠ 0 := by omega
    have harg : (if s.capacity_ = 0 then 1 else s.capacity_ * 2) = s.capacity_ * 2 :=
      if_neg hc
    unfold Reserve
    rw [harg, if_pos (by omega)]
    rw [bufRead_copyInto]
    have hlen : i < (newBuffer (α := α) (s.capacity_ * 2)).length := by
      rw [length_newBuffer]; omega
    rw [if_pos hlen, if_pos hi]
  · rw [if_neg hfull]

lemma growIfFull_len (s : SimpleVector α) (h : WF s) :
    s.size_ + 1 ≤ (growIfFull s).data_.length := by
  obtain ⟨h1, h2⟩ := h
  unfold growIfFull
  by_cases hfull : s.size_ = s.capacity_
  · rw [if_pos hfull]
    unfold Reserve
    by_cases hc : s.capacity_ = 0
    · rw [if_pos hc, if_pos (by omega)]
      simp
      omega
    · rw [if_neg hc, if_pos (by omega)]
      simp
      omega
  · rw [if_neg hfull]
    omega

/-! ### The two `PushBack` overloads perform the same state change -/

lemma growIfFull_eq_pushGrow (s : SimpleVector α) : growIfFull s = pushGrow s := by
  unfold growIfFull pushGrow
  by_cases hfull : s.size_ = s.capacity_
  · rw [if_pos hfull, if_pos hfull]
    unfold Reserve
    by_cases hc : s.capacity_ = 0
    · rw [if_pos hc, if_pos (show (1 : Nat) > s.capacity_ by omega)]
    · have h2 : s.capacity_ * 2 > s.capacity_ := by omega
      rw [if_neg hc, if_pos h2]
  · rw [if_neg hfull, if_neg hfull]

lemma PushBackMove_eq_PushBack (s : SimpleVector α) (v : α) :
    PushBackMove s v = PushBack s v := by
  unfold PushBackMove PushBack
  rw [growIfFull_eq_pushGrow]

lemma pushStep_eq_PushBack (s : SimpleVector α) (p : α × Bool) :
    pushStep s p = PushBack s p.1 := by
  unfold pushStep
  split_ifs
  · exact PushBackMove_eq_PushBack ..
  · rfl

/-! ### The growth invariant of `PushBack` -/

lemma pushGrow_size (s : SimpleVector α) : (pushGrow s).size_ = s.size_ := by
  unfold pushGrow
  split_ifs <;> rfl

lemma PushBack_size (s : SimpleVector α) (v : α) :
    (PushBack s v).size_ = s.size_ + 1 := by
  unfold PushBack
  rw [pushGrow_size]

lemma pushGrow_capacity (s : SimpleVector α) :
    (pushGrow s).capacity_ =
      if s.size_ = s.capacity_ then (if s.capacity_ = 0 then 1 else s.capacity_ * 2)
      else s.capacity_ := by
  unfold pushGrow
  split_ifs <;> rfl

lemma PushBack_goodCap (s : SimpleVector α) (v : α) (h : GoodCap s) :
    GoodCap (PushBack s v) := by
  obtain ⟨hsc, hpow⟩ := h
  have hcap : (PushBack s v).capacity_ = (pushGrow s).capacity_ := rfl
  unfold GoodCap
  rw [hcap, PushBack_size, pushGrow_capacity]
  constructor
  · split_ifs with h1 h2 <;> omega
  · split_ifs with h1 h2
    · exact Or.inr ⟨0, rfl⟩
    · rcases hpow with h0 | ⟨k, hk⟩
      · exact absurd h0 h2
      · exact Or.inr ⟨k + 1, by rw [hk, pow_succ]⟩
    · exact hpow

lemma pushSeq_invariant (items : List (α × Bool)) :
    ∀ s : SimpleVector α, GoodCap s →
      GoodCap (pushSeq s items) ∧ (pushSeq s items).size_ = s.size_ + items.length := by
  induction items with
  | nil => exact fun s h => ⟨h, by simp [pushSeq]⟩
  | cons p rest ih =>
    intro s h
    have step : pushSeq s (p :: rest) = pushSeq (pushStep s p) rest := rfl
    rw [step, pushStep_eq_PushBack]
    obtain ⟨g, sz⟩ := ih (PushBack s p.1) (PushBack_goodCap s p.1 h)
    refine ⟨g, ?_⟩
    rw [sz, PushBack_size]
    simp only [List.length_cons]
    omega

end SimpleVector

section ClaimTheorems

open SimpleVector

/-- C1 (code bug): the copy constructor (`simple_vector.h:48-51`) omits
`capacity_` from its member initializer list, so the copy of the one-element
vector `{42}` reports `GetSize() = 1` and holds the live element `42` in a
freshly allocated buffer, but `GetCapacity() = 0` (the in-class default) —
not the source's size `1` required by the claim. -/
theorem copyCtor_reports_zero_capacity :
    GetSize (copyCtor (mkList [(42 : Nat)])) = 1 ∧
    liveElems (copyCtor (mkList [(42 : Nat)])) = [42] ∧
    GetSize (mkList [(42 : Nat)]) = 1 ∧
    GetCapacity (copyCtor (mkList [(42 : Nat)])) = 0 := by
  decide

/-- C2 (code bug): invariant I1 (`GetSize() ≤ GetCapacity()`) is violated in a
state reachable through the public interface: copy-constructing from the
two-element vector `{7, 9}` yields size `2` but capacity `0`, because the
copy constructor's initializer list omits `capacity_`. -/
theorem copy_of_nonempty_violates_I1 :
    ¬ GetSize (copyCtor (mkList [(7 : Nat), 9])) ≤
        GetCapacity (copyCtor (mkList [(7 : Nat), 9])) := by
  decide

/-- C6: `At(index)` (`simple_vector.h:92-104`) fails (throws
`std::out_of_range`, modelled as `none`) exactly when `index ≥ GetSize()`,
and for `index < GetSize()` succeeds with the live element at that index;
being a pure accessor in the model, it never touches the container. -/
theorem At_checked_access (s : SimpleVector α) (i : Nat) :
    (GetSize s ≤ i → At s i = none) ∧
    (i < GetSize s → At s i = some ((liveElems s).getD i default)) := by
  constructor
  · intro h
    unfold At
    exact if_pos h
  · intro h
    unfold At GetSize at *
    rw [if_neg (by omega)]
    have : (liveElems s).getD i default = bufRead (liveElems s) i := rfl
    rw [this, liveElems, bufRead_rangeMap, if_pos h]

/-- Witness for C6 at a concrete input: the two-element vector `{5, 6}` with
index `1` (so `At(1)` succeeds with `6`, and the out-of-range branch is
vacuous). -/
theorem At_checked_access_witness :
    (GetSize (mkList [(5 : Nat), 6]) ≤ 1 → At (mkList [(5 : Nat), 6]) 1 = none) ∧
    (1 < GetSize (mkList [(5 : Nat), 6]) →
      At (mkList [(5 : Nat), 6]) 1 = some ((liveElems (mkList [(5 : Nat), 6])).getD 1 default)) :=
  At_checked_access (mkList [(5 : Nat), 6]) 1

/-- C3: after any sequence of `PushBack` calls (either overload at each step)
starting from a default-constructed vector, the size equals the number of
pushes, and the capacity is a power-of-two-growth value (`0` or `2 ^ k`)
that is at least the size.  Quantifying over all sequences covers every
intermediate point of a longer sequence. -/
theorem pushSeq_size_and_capacity (items : List (Nat × Bool)) :
    GetSize (pushSeq mkDefault items) = items.length ∧
    GetSize (pushSeq mkDefault items) ≤ GetCapacity (pushSeq mkDefault items) ∧
    (GetCapacity (pushSeq mkDefault items) = 0 ∨
      ∃ k, GetCapacity (pushSeq mkDefault items) = 2 ^ k) := by
  obtain ⟨⟨hle, hpow⟩, hsz⟩ :=
    pushSeq_invariant items mkDefault ⟨Nat.le_refl 0, Or.inl rfl⟩
  refine ⟨?_, hle, hpow⟩
  show (pushSeq mkDefault items).size_ = items.length
  rw [hsz]
  exact Nat.zero_add _

/-- C5: `Reserve(n)` (`simple_vector.h:226-233`) with `n > GetCapacity()`
reallocates to capacity exactly `n`, preserving the live elements in order;
with `n ≤ GetCapacity()` it changes nothing; the size is unchanged in both
cases. -/
theorem Reserve_capacity_and_elements (s : SimpleVector α) (h : WF s) (n : Nat) :
    ReserveClaim s n := by
  obtain ⟨h1, h2⟩ := h
  constructor
  · intro hlt
    unfold GetCapacity at hlt
    unfold Reserve
    rw [if_pos hlt]
    refine ⟨rfl, rfl, ?_⟩
    apply liveElems_congr
    · rfl
    · intro i hi
      rw [bufRead_copyInto, if_pos (show i < (newBuffer (α := α) n).length by
            rw [length_newBuffer]; omega),
        if_pos hi]
  · intro hle
    unfold GetCapacity at hle
    unfold Reserve
    rw [if_neg (by omega)]

/-- Witness for C5: the well-formed vector `{1, 2, 3}` (size 3, capacity 3)
reserved to 10. -/
theorem Reserve_capacity_and_elements_witness :
    WF (mkList [(1 : Nat), 2, 3]) ∧ ReserveClaim (mkList [(1 : Nat), 2, 3]) 10 :=
  ⟨by decide, Reserve_capacity_and_elements (mkList [(1 : Nat), 2, 3]) (by decide) 10⟩

/-- C4: `Resize(n)` (`simple_vector.h:146-158`): if `n ≤ size`, the size is
truncated with capacity and storage untouched; if `n > size`, the size
becomes `n`, the capacity becomes `max(n, capacity × 2)` when `n > capacity`
(unchanged otherwise), and every newly live slot in `[size, n)` reads as a
default-initialized value. -/
theorem Resize_respects_growth_policy (s : SimpleVector α) (h : WF s) (n : Nat) :
    ResizeClaim s n := by
  obtain ⟨h1, h2⟩ := h
  constructor
  · intro hle
    unfold Resize
    rw [if_pos (show n ≤ s.size_ from hle)]
  · intro hlt
    replace hlt : s.size_ < n := hlt
    have hnot : ¬ n ≤ s.size_ := by omega
    by_cases hcap : s.capacity_ < n
    · have harg : (if n > s.capacity_ * 2 then n else s.capacity_ * 2) =
          max n (s.capacity_ * 2) := by
        split_ifs with h3 <;> omega
      have hgrow : resizeGrow s n =
          { data_ := copyInto (newBuffer (max n (s.capacity_ * 2))) s.data_ s.size_,
            size_ := s.size_, capacity_ := max n (s.capacity_ * 2) } := by
        unfold resizeGrow Reserve
        rw [if_pos (show n > s.capacity_ from hcap), harg,
          if_pos (show max n (s.capacity_ * 2) > s.capacity_ from by omega)]
      have hres : Resize s n =
          { data_ := fillDefault
              (copyInto (newBuffer (max n (s.capacity_ * 2))) s.data_ s.size_)
              s.size_ n,
            size_ := n, capacity_ := max n (s.capacity_ * 2) } := by
        unfold Resize
        rw [if_neg hnot, hgrow]
      rw [hres]
      refine ⟨rfl, ?_, fun _ => rfl, ?_⟩
      · intro hcontra
        exact absurd (show n ≤ s.capacity_ from hcontra) (by omega)
      · intro i hi hin
        rw [At_some _ _ (show i < n from hin)]
        rw [bufRead_fillDefault,
          if_pos (show i < (copyInto (newBuffer (α := α) (max n (s.capacity_ * 2)))
              s.data_ s.size_).length from by
            rw [length_copyInto, length_newBuffer]; omega),
          if_pos (show s.size_ ≤ i ∧ i < n from ⟨hi, hin⟩)]
    · have hgrow : resizeGrow s n = s := by
        unfold resizeGrow
        rw [if_neg (show ¬ n > s.capacity_ from hcap)]
      have hres : Resize s n =
          { s with data_ := fillDefault s.data_ s.size_ n, size_ := n } := by
        unfold Resize
        rw [if_neg hnot, hgrow]
      rw [hres]
      refine ⟨rfl, fun _ => rfl, ?_, ?_⟩
      · intro hcontra
        exact absurd (show s.capacity_ < n from hcontra) hcap
      · intro i hi hin
        rw [At_some _ _ (show i < n from hin)]
        rw [bufRead_fillDefault,
          if_pos (show i < s.data_.length from by rw [h2]; omega),
          if_pos (show s.size_ ≤ i ∧ i < n from ⟨hi, hin⟩)]

/-- Witness for C4: the well-formed vector `{1, 2}` (size 2, capacity 2)
resized to 5 (a growth crossing the capacity). -/
theorem Resize_respects_growth_policy_witness :
    WF (mkList [(1 : Nat), 2]) ∧ ResizeClaim (mkList [(1 : Nat), 2]) 5 :=
  ⟨by decide, Resize_respects_growth_policy (mkList [(1 : Nat), 2]) (by decide) 5⟩

/-- C7: for a well-formed vector and a valid insertion offset
`o ≤ GetSize()`, performing `Insert(o, v)` and then `Erase` at the returned
position restores the original live sequence and size. -/
theorem Insert_then_Erase_restores (s : SimpleVector α) (h : WF s) (o : Nat)
    (ho : o ≤ GetSize s) (v : α) : InsertEraseClaim s o v := by
  have hg_size : (growIfFull s).size_ = s.size_ := growIfFull_size s
  have hg_len : s.size_ + 1 ≤ (growIfFull s).data_.length := growIfFull_len s h
  replace ho : o ≤ s.size_ := ho
  refine ⟨?_, ?_⟩
  · apply liveElems_congr
    · show (growIfFull s).size_ + 1 - 1 = s.size_
      omega
    · intro i hi
      show bufRead
          (shiftDown (bufWrite (shiftUp (growIfFull s).data_ o (growIfFull s).size_) o v)
            o ((growIfFull s).size_ + 1)) i
        = bufRead s.data_ i
      rw [hg_size]
      have hL : (bufWrite (shiftUp (growIfFull s).data_ o s.size_) o v).length =
          (growIfFull s).data_.length := by
        rw [length_bufWrite, length_shiftUp]
      rw [bufRead_shiftDown, if_pos (show i < _ from by rw [hL]; omega)]
      by_cases hio : o ≤ i
      · rw [if_pos (show o ≤ i ∧ i + 1 < s.size_ + 1 from ⟨hio, by omega⟩)]
        rw [bufRead_bufWrite_ne _ _ _ _ (show o ≠ i + 1 from by omega)]
        rw [bufRead_shiftUp, if_pos (show i + 1 < (growIfFull s).data_.length from by omega),
          if_pos (show o < i + 1 ∧ i + 1 ≤ s.size_ from ⟨by omega, by omega⟩),
          Nat.add_sub_cancel]
        exact growIfFull_read s i hi
      · rw [if_neg (show ¬ (o ≤ i ∧ i + 1 < s.size_ + 1) from fun hcon => hio hcon.1)]
        rw [bufRead_bufWrite_ne _ _ _ _ (show o ≠ i from by omega)]
        rw [bufRead_shiftUp, if_pos (show i < (growIfFull s).data_.length from by omega),
          if_neg (show ¬ (o < i ∧ i ≤ s.size_) from fun hcon => absurd hcon.1 (by omega))]
        exact growIfFull_read s i hi
  · show (growIfFull s).size_ + 1 - 1 = s.size_
    omega

/-- Witness for C7: inserting 99 at offset 1 of the vector `{10, 20, 30}`
and erasing at the returned position. -/
theorem Insert_then_Erase_restores_witness :
    WF (mkList [(10 : Nat), 20, 30]) ∧
    1 ≤ GetSize (mkList [(10 : Nat), 20, 30]) ∧
    InsertEraseClaim (mkList [(10 : Nat), 20, 30]) 1 99 :=
  ⟨by decide, by decide,
    Insert_then_Erase_restores (mkList [(10 : Nat), 20, 30]) (by decide) 1 (by decide) 99⟩

/-- C9: the size-shrinking operations — `Clear`, `PopBack` (size positive),
`Erase` of a live position, and a truncating `Resize` — leave the capacity
unchanged and release no storage. -/
theorem shrink_ops_preserve_capacity (s : SimpleVector α) (n o : Nat)
    (hpop : 0 < GetSize s) (ho : o < GetSize s) (hn : n ≤ GetSize s) :
    ShrinkFrameClaim s n o := by
  refine ⟨rfl, rfl, rfl, rfl, rfl, ?_, ?_, ?_⟩
  · unfold Erase
    simp
  · unfold Resize
    rw [if_pos (show n ≤ s.size_ from hn)]
    rfl
  · unfold Resize
    rw [if_pos (show n ≤ s.size_ from hn)]

/-- Witness for C9 at the vector `{3, 4}` with `Resize(1)` and `Erase` at
offset 0. -/
theorem shrink_ops_preserve_capacity_witness :
    0 < GetSize (mkList [(3 : Nat), 4]) ∧
    (0 : Nat) < GetSize (mkList [(3 : Nat), 4]) ∧
    1 ≤ GetSize (mkList [(3 : Nat), 4]) ∧
    ShrinkFrameClaim (mkList [(3 : Nat), 4]) 1 0 :=
  ⟨by decide, by decide, by decide,
    shrink_ops_preserve_capacity (mkList [(3 : Nat), 4]) 1 0
      (by decide) (by decide) (by decide)⟩

/-- C8: the move constructor (`simple_vector.h:53-57`) leaves the source with
size `0` and capacity `0`, while the new vector holds exactly the source's
former size, capacity and live elements. -/
theorem moveCtor_transfers_and_empties_source {α : Type} [Inhabited α]
    (A : SimpleVector α) :
    GetSize (moveCtor A).2 = 0 ∧
    GetCapacity (moveCtor A).2 = 0 ∧
    GetSize (moveCtor A).1 = GetSize A ∧
    GetCapacity (moveCtor A).1 = GetCapacity A ∧
    liveElems (moveCtor A).1 = liveElems A :=
  ⟨rfl, rfl, rfl, rfl, rfl⟩

/-- C10: self-assignment is a no-op: both `operator=` overloads
(`simple_vector.h:63-80`) start with the identity guard `this != &rhs`, so
assigning a vector to itself leaves it unchanged, with no temporary copy
built and no ownership transfer. -/
theorem self_assignment_noop {α : Type} [Inhabited α] (A : SimpleVector α) :
    copyAssign A A true = A ∧ moveAssign A A true = (A, A) :=
  ⟨rfl, rfl⟩

end ClaimTheorems

end SpecSV
